/-
Verification of the carousel & navigation state engine of the lumatvlinux
launcher.  Shallow embedding of the state-relevant parts of
src/tvlauncher_Windows.py (class TVLauncher) and
src/modules/app_reorder.py (class ReorderMode and the integration wrappers).

Modelling conventions:
* Python ints used as indices are embedded as ℕ.  All index arithmetic in the
  source is of the form (a + k) % n or (a - k) % n with n = len(apps) > 0 and
  a ≥ 0; Python's (a - k) % n (which is nonnegative for n > 0) is embedded as
  subMod a k n = (a + k * n - k) % n, an exact encoding for n > 0.
* Timestamps (pygame.time.get_ticks in TVLauncher.handle_button, time.time in
  ReorderMode.handle_joypad_button) are embedded as ℕ milliseconds; the 0.3 s
  threshold of handle_joypad_button becomes 300 ms, matching the 300 ms
  threshold of TVLauncher.handle_button.
* In the source, ReorderMode.is_active is True exactly when selected_index and
  target_index hold ints (they are set together in _activate_reorder and
  cleared together in _exit_reorder); the triple is embedded as
  session : Option Session, with is_active ↔ session.isSome.
* Qt timers are embedded by their observable state transitions: arming the
  long-press timer sets longPressArmed; the exit-cooldown timer firing is the
  function clear_exit_cooldown; the transition animation finishing is the
  function reposition_tiles (the connected completion callback).
* Purely visual effects (stylesheets, pixmap caches, overlay widgets, label
  text) are not part of the state; a Tile keeps exactly the fields the engine
  reads back: app_index and the focus flag.
-/
import Mathlib

namespace TVL

/-- Scroll / move direction, as passed to animate_carousel and
reposition_tiles ("left" / "right" in the source). -/
inductive Dir
  | left
  | right
deriving DecidableEq, BEq

/-- One entry of TVLauncher.apps: {name, path, icon} from the config schema. -/
structure Item where
  name : String
  path : String
  icon : Option String
deriving DecidableEq

/-- The engine-visible state of an AppTile: its bound app_index and whether
set_focused(True) was last applied to it. -/
structure Tile where
  appIndex : ℕ
  isFocused : Bool
deriving DecidableEq

/-- An active reorder session: ReorderMode.selected_index and
ReorderMode.target_index (both ints exactly while is_active). -/
structure Session where
  selected : ℕ
  target : ℕ
deriving DecidableEq

/-- The combined mutable state of TVLauncher and its ReorderMode that the
carousel / reorder / input-dispatch code reads and writes. -/
structure Launcher where
  /-- TVLauncher.apps -/
  apps : List Item
  /-- TVLauncher.current_index -/
  currentIndex : ℕ
  /-- TVLauncher.tiles -/
  tiles : List Tile
  /-- TVLauncher.is_animating -/
  isAnimating : Bool
  /-- TVLauncher.is_in_menu -/
  isInMenu : Bool
  /-- TVLauncher.menu_button_index -/
  menuButtonIndex : ℕ
  /-- len(TVLauncher.menu_buttons) (fixed after init_ui) -/
  menuButtonCount : ℕ
  /-- TVLauncher.inputs_enabled -/
  inputsEnabled : Bool
  /-- TVLauncher.progress_dialog is not None and visible -/
  progressDialogVisible : Bool
  /-- QApplication has an active modal or popup widget
  (ReorderMode._is_dialog_active) -/
  dialogActive : Bool
  /-- TVLauncher.button_cooldown: per-button last-fire tick map (newest first) -/
  buttonCooldown : List (ℕ × ℕ)
  /-- ReorderMode.is_active / selected_index / target_index -/
  session : Option Session
  /-- ReorderMode.recently_exited -/
  recentlyExited : Bool
  /-- ReorderMode.long_press_timer.isActive() -/
  longPressArmed : Bool
  /-- ReorderMode.last_button_times: per-button last-fire time map (newest first) -/
  lastButtonTimes : List (ℕ × ℕ)
deriving DecidableEq

/-- Python's (a - b) % n for a b : ℕ and n > 0, encoded without leaving ℕ:
(a + b * n - b) % n.  For n > 0 we have b ≤ b * n, so the ℕ subtraction is
exact and the value equals the mathematical (a - b) mod n. -/
def subMod (a b n : ℕ) : ℕ :=
  (a + b * n - b) % n

/-- Fallback Item for List.getD; the source never reads an out-of-range index
here (selected_index is a valid index whenever confirm_reorder runs). -/
def defaultItem : Item :=
  ⟨"", "", none⟩

/-- Python list.pop(i): the element removed.  Embedded as a read at i. -/
def popItem (l : List Item) (i : ℕ) : Item :=
  l.getD i defaultItem

/-- Python list.pop(i): the remaining list (i is in range at every call site). -/
def removeAt : List Item → ℕ → List Item
  | [], _ => []
  | _ :: ys, 0 => ys
  | y :: ys, Nat.succ j => y :: removeAt ys j

/-- Python list.insert(i, x): inserts before position i, appending when
i ≥ len — exactly Python's clamping behaviour. -/
def insertAt : ℕ → Item → List Item → List Item
  | _, x, [] => [x]
  | 0, x, y :: ys => x :: y :: ys
  | Nat.succ j, x, y :: ys => y :: insertAt j x ys

/-! ## TVLauncher: carousel core (src/tvlauncher_Windows.py) -/

/-- TVLauncher.animate_carousel (lines 1958-1977), state part: returns early
when a transition is running or there are no tiles (the Bool is the
TransitionController "begin succeeded" indicator — the source communicates it
by doing nothing); otherwise takes the animation lock and starts the slide
whose finished-callback is reposition_tiles. -/
def animate_carousel (L : Launcher) : Launcher × Bool :=
  if L.isAnimating || L.tiles.isEmpty then (L, false)
  else ({ L with isAnimating := true }, true)

/-- Re-running of tile.set_focused(i == center_tile_index) over the tiles list
(the for-loop at lines 2012-2013 with center_tile_index = 4). -/
def refocusTiles (ts : List Tile) : List Tile :=
  ((List.range ts.length).zip ts).map fun p => { p.2 with isFocused := p.1 == 4 }

/-- TVLauncher.reposition_tiles (lines 1979-2016): the transition-completion
callback.  direction "right": pop the leading tile, rebind it to
(current_index + 4) % num_apps, append it; "left": pop the trailing tile,
rebind it to (current_index - 4) % num_apps, prepend it.  Then set the focus
flag on all tiles (center position 4) and release the animation lock. -/
def reposition_tiles (L : Launcher) (d : Dir) : Launcher :=
  let n := L.apps.length
  let ts : List Tile :=
    match d with
    | .right => L.tiles.tail ++ [⟨(L.currentIndex + 4) % n, false⟩]
    | .left => ⟨subMod L.currentIndex 4 n, false⟩ :: L.tiles.dropLast
  { L with tiles := refocusTiles ts, isAnimating := false }

/-- TVLauncher.build_infinite_carousel (lines 1918-1943): clears the tiles,
returns early on an empty store, resets current_index to 0 when it is out of
range, then creates max_visible_tiles = 9 tiles, tile i bound to
(current_index + (i - 4)) % num_apps, focused iff i = 4. -/
def build_infinite_carousel (L : Launcher) : Launcher :=
  if L.apps.isEmpty then { L with tiles := [] }
  else
    let ci := if L.apps.length ≤ L.currentIndex then 0 else L.currentIndex
    let n := L.apps.length
    { L with
      currentIndex := ci,
      tiles := (List.range 9).map fun i => ⟨subMod (ci + i) 4 n, i == 4⟩ }

/-- TVLauncher.keyPressEvent, Key_Right branch (lines 2226-2233 guards and
2272-2278): inputs-enabled and progress-dialog gates, menu navigation when the
menu is open, else — if the store is non-empty and no transition runs —
advance current_index by +1 (mod N) and start the slide. -/
def keyRight (L : Launcher) : Launcher :=
  if !L.inputsEnabled then L
  else if L.progressDialogVisible then L
  else if L.isInMenu then
    { L with menuButtonIndex := (L.menuButtonIndex + 1) % L.menuButtonCount }
  else if !L.apps.isEmpty && !L.isAnimating then
    (animate_carousel { L with currentIndex := (L.currentIndex + 1) % L.apps.length }).1
  else L

/-- TVLauncher.keyPressEvent, Key_Left branch (lines 2279-2285): as keyRight
with current_index advanced by -1 (mod N). -/
def keyLeft (L : Launcher) : Launcher :=
  if !L.inputsEnabled then L
  else if L.progressDialogVisible then L
  else if L.isInMenu then
    { L with menuButtonIndex := subMod L.menuButtonIndex 1 L.menuButtonCount }
  else if !L.apps.isEmpty && !L.isAnimating then
    (animate_carousel { L with currentIndex := subMod L.currentIndex 1 L.apps.length }).1
  else L

/-- One accepted browse scroll step carried to completion: the key handler
fires and the started transition's finished-callback (reposition_tiles with
the same direction) runs. -/
def browseStep (L : Launcher) (d : Dir) : Launcher :=
  match d with
  | .right => reposition_tiles (keyRight L) .right
  | .left => reposition_tiles (keyLeft L) .left

/-- TVLauncher.handle_button (lines 1370-1385): per-button 300 ms cooldown
map; when the press is accepted the map is stamped and — for the buttons the
if/elif chain maps (0, 1, 2, 3, 9) — one key command is synthesised.  The
Bool records whether simulate_key_press was invoked. -/
def handle_button (L : Launcher) (b t : ℕ) : Launcher × Bool :=
  let blocked :=
    match L.buttonCooldown.lookup b with
    | some last => decide (t - last < 300)
    | none => false
  if blocked then (L, false)
  else
    ({ L with buttonCooldown := (b, t) :: L.buttonCooldown },
      b == 0 || b == 1 || b == 2 || b == 3 || b == 9)

/-- TVLauncher.remove_current_app (lines 2166-2208), state part: empty-store
guard; the pop happens only on a Yes reply, the clamp of current_index (to
len-1, or 0 on an emptied store) runs unconditionally, then the carousel is
rebuilt. -/
def remove_current_app (L : Launcher) (replyYes : Bool) : Launcher :=
  if L.apps.isEmpty then L
  else
    let L1 := if replyYes then { L with apps := removeAt L.apps L.currentIndex } else L
    let L2 :=
      if L1.apps.length ≤ L1.currentIndex ∧ L1.apps.isEmpty = false then
        { L1 with currentIndex := L1.apps.length - 1 }
      else if L1.apps.isEmpty then { L1 with currentIndex := 0 }
      else L1
    build_infinite_carousel L2

/-! ## ReorderMode (src/modules/app_reorder.py) -/

/-- ReorderMode._clear_exit_cooldown (lines 46-48): the exit-cooldown timer
callback; clears the flag. -/
def clear_exit_cooldown (L : Launcher) : Launcher :=
  { L with recentlyExited := false }

/-- ReorderMode.start_long_press (lines 63-71): arms the 800 ms long-press
timer, only when inactive, the store is non-empty, no exit cooldown runs, no
menu and no dialog is active. -/
def start_long_press (L : Launcher) : Launcher :=
  if L.session.isNone && !L.apps.isEmpty && !L.recentlyExited
      && !L.isInMenu && !L.dialogActive then
    { L with longPressArmed := true }
  else L

/-- ReorderMode._activate_reorder (lines 85-99): stops the long-press timer,
re-checks the preconditions (non-empty store, inactive, no menu, no dialog)
and records selected_index = target_index = current_index. -/
def activate_reorder (L : Launcher) : Launcher :=
  let L1 := { L with longPressArmed := false }
  if !L1.apps.isEmpty && L1.session.isNone && !L1.isInMenu && !L1.dialogActive then
    { L1 with session := some ⟨L1.currentIndex, L1.currentIndex⟩ }
  else L1

/-- ReorderMode.move_left (lines 247-271): inactive → False.  num_apps ≤ 5:
decrement target_index only when it is > 0 (linear, clamped, no animation).
Otherwise: target_index := (target_index - 1) % num_apps, current_index is
dragged along, and animate_carousel("left") is invoked — with no check of the
animation lock. -/
def move_left (L : Launcher) : Launcher × Bool :=
  match L.session with
  | none => (L, false)
  | some sess =>
    let n := L.apps.length
    if n ≤ 5 then
      if 0 < sess.target then
        ({ L with session := some ⟨sess.selected, sess.target - 1⟩ }, true)
      else (L, false)
    else
      let nt := subMod sess.target 1 n
      ((animate_carousel
        { L with session := some ⟨sess.selected, nt⟩, currentIndex := nt }).1, true)

/-- ReorderMode.move_right (lines 273-297): mirror image of move_left; in the
linear branch the increment fires only when target_index < num_apps - 1. -/
def move_right (L : Launcher) : Launcher × Bool :=
  match L.session with
  | none => (L, false)
  | some sess =>
    let n := L.apps.length
    if n ≤ 5 then
      if sess.target < n - 1 then
        ({ L with session := some ⟨sess.selected, sess.target + 1⟩ }, true)
      else (L, false)
    else
      let nt := (sess.target + 1) % n
      ((animate_carousel
        { L with session := some ⟨sess.selected, nt⟩, currentIndex := nt }).1, true)

/-- ReorderMode._exit_reorder (lines 344-356): deactivates the session, hides
the UI, sets the exit-cooldown flag (500 ms timer) and stops the long-press
timer. -/
def exit_reorder (L : Launcher) : Launcher :=
  { L with session := none, recentlyExited := true, longPressArmed := false }

/-- ReorderMode.confirm_reorder (lines 299-326): inactive → False; sets
recently_exited immediately; when selected ≠ target pops the selected item,
reinserts it at target_index and moves current_index to target_index; exits,
rebuilds the carousel and restarts the exit cooldown (1000 ms). -/
def confirm_reorder (L : Launcher) : Launcher × Bool :=
  match L.session with
  | none => (L, false)
  | some sess =>
    let L1 := { L with recentlyExited := true }
    let L2 :=
      if sess.selected ≠ sess.target then
        { L1 with
          apps := insertAt sess.target (popItem L1.apps sess.selected)
            (removeAt L1.apps sess.selected),
          currentIndex := sess.target }
      else L1
    (build_infinite_carousel (exit_reorder L2), true)

/-- ReorderMode.cancel_reorder (lines 328-342): inactive → False; exits,
restores current_index to the session's selected_index and rebuilds. -/
def cancel_reorder (L : Launcher) : Launcher × Bool :=
  match L.session with
  | none => (L, false)
  | some sess =>
    let L1 := { exit_reorder L with currentIndex := sess.selected }
    (build_infinite_carousel L1, true)

/-- ReorderMode.handle_joypad_button (lines 358-380): per-button 300 ms
debounce map (stamped on every accepted press); buttons 5/10 (RB) toggle the
mode — blocked by dialog/menu, activation additionally by an empty store or
the exit cooldown; every other accepted button returns False. -/
def handle_joypad_button (L : Launcher) (b t : ℕ) : Launcher × Bool :=
  let blocked :=
    match L.lastButtonTimes.lookup b with
    | some last => decide (t - last < 300)
    | none => false
  if blocked then (L, false)
  else
    let L1 := { L with lastButtonTimes := (b, t) :: L.lastButtonTimes }
    if b == 5 || b == 10 then
      if L1.dialogActive || L1.isInMenu then (L1, false)
      else
        match L1.session with
        | none =>
          if !L1.apps.isEmpty && !L1.recentlyExited then (activate_reorder L1, true)
          else (L1, false)
        | some _ => ((cancel_reorder L1).1, true)
    else (L1, false)

/-- enhanced_key_press, Key_R branch (app_reorder.py lines 407-419): the
keyboard toggle.  Blocked by dialog/menu (the R key then falls through to the
original handler, which ignores it); when inactive it activates unless the
store is empty or the exit cooldown runs; when active it cancels. -/
def key_toggle_r (L : Launcher) : Launcher :=
  if L.dialogActive || L.isInMenu then L
  else
    match L.session with
    | none =>
      if !L.apps.isEmpty && !L.recentlyExited then activate_reorder L else L
    | some _ => (cancel_reorder L).1

/-- Where a polled controller button press ends up in enhanced_handle_button. -/
inductive ButtonOutcome
  | dropped
  | confirmed
  | cancelled
  | toggled
  | original
deriving DecidableEq

/-- enhanced_handle_button (app_reorder.py lines 477-500): the installed
controller button handler.  During the exit cooldown every button is dropped
before anything else runs; in an active session button 0 confirms and button 1
cancels; then the RB toggle gets a chance; only an unhandled press reaches the
original TVLauncher.handle_button. -/
def enhanced_handle_button (L : Launcher) (b t : ℕ) : Launcher × ButtonOutcome :=
  if L.recentlyExited then (L, .dropped)
  else if L.session.isSome && b == 0 then ((confirm_reorder L).1, .confirmed)
  else if L.session.isSome && b == 1 then ((cancel_reorder L).1, .cancelled)
  else
    let r := handle_joypad_button L b t
    if r.2 then (r.1, .toggled)
    else ((handle_button r.1 b t).1, .original)

/-! ## Derived runs and spec-side comparison definitions -/

/-- Folding a list of reorder move commands through move_left / move_right
(dropping the Bool results, as the key handler does). -/
def applyMoves (L : Launcher) (ds : List Dir) : Launcher :=
  ds.foldl
    (fun M d =>
      match d with
      | .left => (move_left M).1
      | .right => (move_right M).1) L

/-- net_steps of a command sequence as the spec words it: number of right
commands minus number of left commands, as an integer. -/
def netSteps (ds : List Dir) : ℤ :=
  (ds.count .right : ℤ) - (ds.count .left : ℤ)

/-- The spec's centered window of bound indices,
{(FocusIndex + k) mod N : k ∈ [-4, 4]}, listed slot by slot (slot i holds
offset k = i - 4). -/
def specWindow (n ci : ℕ) : List ℕ :=
  (List.range 9).map fun i => subMod (ci + i) 4 n

/-- The canonical tile window that a completed build / recycle leaves behind:
slot i bound to (ci + i - 4) mod n, focused iff i = 4. -/
def windowTiles (n ci : ℕ) : List Tile :=
  (List.range 9).map fun i => ⟨subMod (ci + i) 4 n, i == 4⟩

/-- The spec's focus invariant: exactly the fixed center slot (position 4) of
the W = 9 slots is focused. -/
def focusPattern : List Bool :=
  [false, false, false, false, true, false, false, false, false]

/-- A fresh launcher state over a given store and focus, as after startup:
no animation, no menu, no dialog, empty cooldown maps, reorder inactive. -/
def initLauncher (apps : List Item) (ci : ℕ) : Launcher :=
  { apps := apps
    currentIndex := ci
    tiles := []
    isAnimating := false
    isInMenu := false
    menuButtonIndex := 0
    menuButtonCount := 6
    inputsEnabled := true
    progressDialogVisible := false
    dialogActive := false
    buttonCooldown := []
    session := none
    recentlyExited := false
    longPressArmed := false
    lastButtonTimes := [] }

/-- The C1 scenario: store [A,B,C,D,E], focus 1, enter reorder, two
move-rights (target 1 → 2 → 3), confirm. -/
def c1Run (a b c d e : Item) : Launcher × Bool :=
  let L0 := initLauncher [a, b, c, d, e] 1
  let L1 := activate_reorder L0
  let L2 := (move_right L1).1
  let L3 := (move_right L2).1
  confirm_reorder L3

/-! ## Helper lemmas -/

lemma isEmpty_false_of_pos {α : Type} (l : List α) (h : 0 < l.length) :
    l.isEmpty = false := by
  cases l
  · simp at h
  · rfl

lemma subMod_lt (a b n : ℕ) (hn : 0 < n) : subMod a b n < n :=
  Nat.mod_lt _ hn

lemma subMod_cast (a b n : ℕ) (hn : 0 < n) :
    ((subMod a b n : ℕ) : ℤ) = ((a : ℤ) - b) % (n : ℤ) := by
  unfold subMod
  have hb : b ≤ a + b * n :=
    le_trans (Nat.le_mul_of_pos_right b hn) (Nat.le_add_left _ _)
  rw [Int.natCast_mod, Nat.cast_sub hb]
  push_cast
  have h2 : (a : ℤ) + b * n - b = (a - b) + n * b := by ring
  rw [h2, Int.add_mul_emod_self_left]

lemma animate_fst_apps (L : Launcher) : (animate_carousel L).1.apps = L.apps := by
  unfold animate_carousel; split <;> rfl

lemma animate_fst_currentIndex (L : Launcher) :
    (animate_carousel L).1.currentIndex = L.currentIndex := by
  unfold animate_carousel; split <;> rfl

lemma animate_fst_isInMenu (L : Launcher) :
    (animate_carousel L).1.isInMenu = L.isInMenu := by
  unfold animate_carousel; split <;> rfl

lemma animate_fst_inputsEnabled (L : Launcher) :
    (animate_carousel L).1.inputsEnabled = L.inputsEnabled := by
  unfold animate_carousel; split <;> rfl

lemma animate_fst_progressDialogVisible (L : Launcher) :
    (animate_carousel L).1.progressDialogVisible = L.progressDialogVisible := by
  unfold animate_carousel; split <;> rfl

lemma animate_fst_session (L : Launcher) :
    (animate_carousel L).1.session = L.session := by
  unfold animate_carousel; split <;> rfl

lemma animate_fst_recentlyExited (L : Launcher) :
    (animate_carousel L).1.recentlyExited = L.recentlyExited := by
  unfold animate_carousel; split <;> rfl

lemma animate_fst_dialogActive (L : Launcher) :
    (animate_carousel L).1.dialogActive = L.dialogActive := by
  unfold animate_carousel; split <;> rfl

lemma animate_fst_lastButtonTimes (L : Launcher) :
    (animate_carousel L).1.lastButtonTimes = L.lastButtonTimes := by
  unfold animate_carousel; split <;> rfl

lemma keyRight_accepted (L : Launcher) (hi : L.inputsEnabled = true)
    (hp : L.progressDialogVisible = false) (hm : L.isInMenu = false)
    (hne : L.apps.isEmpty = false) (ha : L.isAnimating = false) :
    keyRight L =
      (animate_carousel
        { L with currentIndex := (L.currentIndex + 1) % L.apps.length }).1 := by
  unfold keyRight
  rw [hi, hp, hm, hne, ha]
  rfl

lemma keyLeft_accepted (L : Launcher) (hi : L.inputsEnabled = true)
    (hp : L.progressDialogVisible = false) (hm : L.isInMenu = false)
    (hne : L.apps.isEmpty = false) (ha : L.isAnimating = false) :
    keyLeft L =
      (animate_carousel
        { L with currentIndex := subMod L.currentIndex 1 L.apps.length }).1 := by
  unfold keyLeft
  rw [hi, hp, hm, hne, ha]
  rfl

/-- One completed browse scroll step: preserved fields and the new focus. -/
lemma browseStep_fields (L : Launcher) (d : Dir) (hi : L.inputsEnabled = true)
    (hp : L.progressDialogVisible = false) (hm : L.isInMenu = false)
    (hne : L.apps.isEmpty = false) (ha : L.isAnimating = false) :
    (browseStep L d).apps = L.apps ∧ (browseStep L d).isInMenu = false
      ∧ (browseStep L d).isAnimating = false
      ∧ (browseStep L d).inputsEnabled = true
      ∧ (browseStep L d).progressDialogVisible = false
      ∧ (browseStep L d).currentIndex =
          (match d with
            | .right => (L.currentIndex + 1) % L.apps.length
            | .left => subMod L.currentIndex 1 L.apps.length) := by
  cases d
  · unfold browseStep
    rw [keyLeft_accepted L hi hp hm hne ha]
    unfold reposition_tiles
    refine ⟨?_, ?_, rfl, ?_, ?_, ?_⟩
    · rw [animate_fst_apps]
    · rw [animate_fst_isInMenu]; exact hm
    · rw [animate_fst_inputsEnabled]; exact hi
    · rw [animate_fst_progressDialogVisible]; exact hp
    · rw [animate_fst_currentIndex]
  · unfold browseStep
    rw [keyRight_accepted L hi hp hm hne ha]
    unfold reposition_tiles
    refine ⟨?_, ?_, rfl, ?_, ?_, ?_⟩
    · rw [animate_fst_apps]
    · rw [animate_fst_isInMenu]; exact hm
    · rw [animate_fst_inputsEnabled]; exact hi
    · rw [animate_fst_progressDialogVisible]; exact hp
    · rw [animate_fst_currentIndex]

lemma dir_beq_ll : (Dir.left == Dir.left) = true := rfl

lemma dir_beq_lr : (Dir.left == Dir.right) = false := rfl

lemma dir_beq_rl : (Dir.right == Dir.left) = false := rfl

lemma dir_beq_rr : (Dir.right == Dir.right) = true := rfl

lemma netSteps_cons (d : Dir) (ds : List Dir) :
    netSteps (d :: ds) =
      netSteps ds + (match d with | .right => 1 | .left => -1) := by
  cases d <;>
    simp [netSteps, List.count_cons, dir_beq_ll, dir_beq_lr, dir_beq_rl,
      dir_beq_rr] <;>
    ring

/-- C2: circularity of browse scrolling — after any sequence of accepted
left/right scroll commands (each carried to completion, with no intervening
mutation), FocusIndex equals (initial + net_steps) mod N, where net_steps is
the number of right commands minus the number of left commands. -/
theorem c2_browse_circularity (L : Launcher) (ds : List Dir)
    (hn : 0 < L.apps.length) (hci : L.currentIndex < L.apps.length)
    (hm : L.isInMenu = false) (ha : L.isAnimating = false)
    (hi : L.inputsEnabled = true) (hp : L.progressDialogVisible = false) :
    ((ds.foldl browseStep L).currentIndex : ℤ)
      = ((L.currentIndex : ℤ) + netSteps ds) % (L.apps.length : ℤ) := by
  induction ds generalizing L with
  | nil =>
    simp only [List.foldl_nil, netSteps, List.count_nil, Nat.cast_zero, sub_zero,
      add_zero]
    exact (Int.emod_eq_of_lt (by positivity) (by exact_mod_cast hci)).symm
  | cons d ds ih =>
    have hne : L.apps.isEmpty = false := isEmpty_false_of_pos _ hn
    obtain ⟨happs, hm1, ha1, hi1, hp1, hciEq⟩ :=
      browseStep_fields L d hi hp hm hne ha
    have hn1 : 0 < (browseStep L d).apps.length := by rw [happs]; exact hn
    have hci1 : (browseStep L d).currentIndex < (browseStep L d).apps.length := by
      rw [happs, hciEq]
      cases d
      · exact subMod_lt _ _ _ hn
      · exact Nat.mod_lt _ hn
    rw [List.foldl_cons, ih (browseStep L d) hn1 hci1 hm1 ha1 hi1 hp1, happs,
      hciEq, netSteps_cons]
    cases d
    · rw [subMod_cast _ _ _ hn, Int.emod_add_emod]
      congr 1
      ring
    · rw [Int.natCast_mod]
      push_cast
      rw [Int.emod_add_emod]
      congr 1
      ring

/-- Concrete three-item store used by several witnesses. -/
def witnessItems : List Item :=
  [⟨"A", "pa", none⟩, ⟨"B", "pb", none⟩, ⟨"C", "pc", none⟩]

/-- Witness for C2: two rights and a left over a three-item store, from
focus 0 — FocusIndex ends at (0 + 1) mod 3 = 1. -/
theorem c2_browse_circularity_witness :
    (([Dir.right, Dir.right, Dir.left].foldl browseStep
        (initLauncher witnessItems 0)).currentIndex : ℤ)
      = (((initLauncher witnessItems 0).currentIndex : ℤ)
          + netSteps [Dir.right, Dir.right, Dir.left])
          % ((initLauncher witnessItems 0).apps.length : ℤ) :=
  c2_browse_circularity (initLauncher witnessItems 0)
    [Dir.right, Dir.right, Dir.left]
    (by decide) (by decide) (by decide) (by decide) (by decide) (by decide)

/-! ## Slot-window lemmas (C3) -/

lemma windowTiles_eq (n ci : ℕ) :
    windowTiles n ci =
      [⟨subMod (ci + 0) 4 n, false⟩, ⟨subMod (ci + 1) 4 n, false⟩,
       ⟨subMod (ci + 2) 4 n, false⟩, ⟨subMod (ci + 3) 4 n, false⟩,
       ⟨subMod (ci + 4) 4 n, true⟩, ⟨subMod (ci + 5) 4 n, false⟩,
       ⟨subMod (ci + 6) 4 n, false⟩, ⟨subMod (ci + 7) 4 n, false⟩,
       ⟨subMod (ci + 8) 4 n, false⟩] := rfl

lemma refocusTiles_nine (a0 a1 a2 a3 a4 a5 a6 a7 a8 : ℕ)
    (b0 b1 b2 b3 b4 b5 b6 b7 b8 : Bool) :
    refocusTiles
      [⟨a0, b0⟩, ⟨a1, b1⟩, ⟨a2, b2⟩, ⟨a3, b3⟩, ⟨a4, b4⟩, ⟨a5, b5⟩, ⟨a6, b6⟩,
       ⟨a7, b7⟩, ⟨a8, b8⟩] =
      [⟨a0, false⟩, ⟨a1, false⟩, ⟨a2, false⟩, ⟨a3, false⟩, ⟨a4, true⟩,
       ⟨a5, false⟩, ⟨a6, false⟩, ⟨a7, false⟩, ⟨a8, false⟩] := rfl

lemma windowTiles_map_appIndex (n ci : ℕ) :
    (windowTiles n ci).map (fun t => t.appIndex) = specWindow n ci := rfl

lemma windowTiles_map_isFocused (n ci : ℕ) :
    (windowTiles n ci).map (fun t => t.isFocused) = focusPattern := rfl

lemma subMod_mod_add (x j b n : ℕ) (hn : 0 < n) :
    subMod (x % n + j) b n = subMod (x + j) b n := by
  unfold subMod
  have hb : b ≤ b * n := Nat.le_mul_of_pos_right b hn
  have h1 : x % n + j + b * n - b = x % n + (j + b * n - b) := by omega
  have h2 : x + j + b * n - b = x + (j + b * n - b) := by omega
  rw [h1, h2, Nat.mod_add_mod]

lemma subMod_add_eight (y n : ℕ) (hn : 0 < n) :
    subMod (y + 8) 4 n = (y + 4) % n := by
  unfold subMod
  have hb : 4 ≤ 4 * n := Nat.le_mul_of_pos_right 4 hn
  have h1 : y + 8 + 4 * n - 4 = y + 4 + 4 * n := by omega
  rw [h1, Nat.add_mul_mod_self_right]

lemma subMod_sub_one_add (x j b n : ℕ) (hn : 0 < n) :
    subMod (subMod x 1 n + j) b n = subMod (x + n - 1 + j) b n := by
  have h : subMod x 1 n = (x + n - 1) % n := by
    unfold subMod
    congr 1
    omega
  rw [h, subMod_mod_add _ _ _ _ hn]

lemma subMod_add_n (a b n : ℕ) (hn : 0 < n) :
    subMod (a + n) b n = subMod a b n := by
  unfold subMod
  have hb : b ≤ b * n := Nat.le_mul_of_pos_right b hn
  have h1 : a + n + b * n - b = (a + b * n - b) + n := by omega
  rw [h1, Nat.add_mod_right]

lemma subMod_right_comp (f0 j n : ℕ) (hn : 0 < n) :
    subMod (f0 + (j + 1)) 4 n = subMod ((f0 + 1) % n + j) 4 n := by
  rw [subMod_mod_add _ _ _ _ hn]
  congr 1
  omega

/-- The right-recycle of a complete window is the window of the advanced
focus. -/
lemma windowTiles_recycle_right (n f0 : ℕ) (hn : 0 < n) :
    refocusTiles ((windowTiles n f0).tail ++ [⟨((f0 + 1) % n + 4) % n, false⟩])
      = windowTiles n ((f0 + 1) % n) := by
  rw [windowTiles_eq n f0, windowTiles_eq n ((f0 + 1) % n)]
  simp only [List.tail_cons, List.cons_append, List.nil_append]
  rw [refocusTiles_nine]
  simp only [List.cons.injEq, Tile.mk.injEq, and_true, true_and]
  refine ⟨?_, ?_, ?_, ?_, ?_, ?_, ?_, ?_, ?_⟩
  · exact subMod_right_comp f0 0 n hn
  · exact subMod_right_comp f0 1 n hn
  · exact subMod_right_comp f0 2 n hn
  · exact subMod_right_comp f0 3 n hn
  · exact subMod_right_comp f0 4 n hn
  · exact subMod_right_comp f0 5 n hn
  · exact subMod_right_comp f0 6 n hn
  · exact subMod_right_comp f0 7 n hn
  · exact (subMod_add_eight ((f0 + 1) % n) n hn).symm

lemma subMod_left_comp (f0 j n : ℕ) (hn : 0 < n) (hj : 1 ≤ j) :
    subMod (f0 + (j - 1)) 4 n = subMod (subMod f0 1 n + j) 4 n := by
  rw [subMod_sub_one_add _ _ _ _ hn]
  have h : f0 + n - 1 + j = f0 + (j - 1) + n := by omega
  rw [h, subMod_add_n _ _ _ hn]

/-- The left-recycle of a complete window is the window of the retreated
focus. -/
lemma windowTiles_recycle_left (n f0 : ℕ) (hn : 0 < n) :
    refocusTiles
        (⟨subMod (subMod f0 1 n) 4 n, false⟩ :: (windowTiles n f0).dropLast)
      = windowTiles n (subMod f0 1 n) := by
  rw [windowTiles_eq n f0, windowTiles_eq n (subMod f0 1 n)]
  show refocusTiles
      [⟨subMod (subMod f0 1 n) 4 n, false⟩, ⟨subMod (f0 + 0) 4 n, false⟩,
       ⟨subMod (f0 + 1) 4 n, false⟩, ⟨subMod (f0 + 2) 4 n, false⟩,
       ⟨subMod (f0 + 3) 4 n, false⟩, ⟨subMod (f0 + 4) 4 n, true⟩,
       ⟨subMod (f0 + 5) 4 n, false⟩, ⟨subMod (f0 + 6) 4 n, false⟩,
       ⟨subMod (f0 + 7) 4 n, false⟩] = _
  rw [refocusTiles_nine]
  simp only [List.cons.injEq, Tile.mk.injEq, and_true, true_and]
  refine ⟨?_, ?_, ?_, ?_, ?_, ?_, ?_, ?_, ?_⟩
  · rfl
  · exact subMod_left_comp f0 1 n hn (by omega)
  · exact subMod_left_comp f0 2 n hn (by omega)
  · exact subMod_left_comp f0 3 n hn (by omega)
  · exact subMod_left_comp f0 4 n hn (by omega)
  · exact subMod_left_comp f0 5 n hn (by omega)
  · exact subMod_left_comp f0 6 n hn (by omega)
  · exact subMod_left_comp f0 7 n hn (by omega)
  · exact subMod_left_comp f0 8 n hn (by omega)

lemma build_state (L : Launcher) (hn : 0 < L.apps.length) :
    build_infinite_carousel L =
      { L with
        currentIndex := if L.apps.length ≤ L.currentIndex then 0 else L.currentIndex,
        tiles := windowTiles L.apps.length
          (if L.apps.length ≤ L.currentIndex then 0 else L.currentIndex) } := by
  unfold build_infinite_carousel windowTiles
  rw [isEmpty_false_of_pos _ hn]
  rfl

lemma reposition_currentIndex (L : Launcher) (d : Dir) :
    (reposition_tiles L d).currentIndex = L.currentIndex := rfl

lemma reposition_right_tiles (L : Launcher) :
    (reposition_tiles L .right).tiles =
      refocusTiles
        (L.tiles.tail ++ [⟨(L.currentIndex + 4) % L.apps.length, false⟩]) := rfl

lemma reposition_left_tiles (L : Launcher) :
    (reposition_tiles L .left).tiles =
      refocusTiles
        (⟨subMod L.currentIndex 4 L.apps.length, false⟩ :: L.tiles.dropLast) := rfl

/-- C3 (amended): slot invariant — after every full rebuild the bound indices
over the 9 slots are exactly the centered window (FocusIndex + k) mod N for
k in [-4, 4] and exactly the fixed center slot (position 4) is focused; a
completed recycle step re-establishes the window of the new FocusIndex
whenever FocusIndex is exactly one step, in the recycle direction, ahead of
the base focus of the window the slots held when the transition began — the
phase every lock-gated browse scroll maintains.  Ungated reorder circular
moves can advance FocusIndex a second time while the animation is in flight,
and such a completed transition violates the window equation (see the
counterexample below). -/
theorem c3_slot_invariant (L : Launcher) (hn : 0 < L.apps.length) :
    ((build_infinite_carousel L).tiles.map (fun t => t.appIndex)
        = specWindow L.apps.length (build_infinite_carousel L).currentIndex
      ∧ (build_infinite_carousel L).tiles.map (fun t => t.isFocused) = focusPattern)
    ∧ (∀ f0, L.tiles = windowTiles L.apps.length f0 →
        L.currentIndex = (f0 + 1) % L.apps.length →
        (reposition_tiles L .right).tiles.map (fun t => t.appIndex)
            = specWindow L.apps.length (reposition_tiles L .right).currentIndex
          ∧ (reposition_tiles L .right).tiles.map (fun t => t.isFocused)
              = focusPattern)
    ∧ (∀ f0, L.tiles = windowTiles L.apps.length f0 →
        L.currentIndex = subMod f0 1 L.apps.length →
        (reposition_tiles L .left).tiles.map (fun t => t.appIndex)
            = specWindow L.apps.length (reposition_tiles L .left).currentIndex
          ∧ (reposition_tiles L .left).tiles.map (fun t => t.isFocused)
              = focusPattern) := by
  refine ⟨⟨?_, ?_⟩, ?_, ?_⟩
  · rw [build_state L hn]
    exact windowTiles_map_appIndex _ _
  · rw [build_state L hn]
    exact windowTiles_map_isFocused _ _
  · intro f0 h1 h2
    constructor
    · rw [reposition_right_tiles, reposition_currentIndex, h1, h2,
        windowTiles_recycle_right _ _ hn]
      exact windowTiles_map_appIndex _ _
    · rw [reposition_right_tiles, h1, h2, windowTiles_recycle_right _ _ hn]
      exact windowTiles_map_isFocused _ _
  · intro f0 h1 h2
    constructor
    · rw [reposition_left_tiles, reposition_currentIndex, h1, h2,
        windowTiles_recycle_left _ _ hn]
      exact windowTiles_map_appIndex _ _
    · rw [reposition_left_tiles, h1, h2, windowTiles_recycle_left _ _ hn]
      exact windowTiles_map_isFocused _ _

/-- Witness for C3: the freshly built three-item carousel satisfies the
window equation. -/
theorem c3_slot_invariant_witness :
    (build_infinite_carousel (initLauncher witnessItems 0)).tiles.map
        (fun t => t.appIndex)
      = specWindow (initLauncher witnessItems 0).apps.length
          (build_infinite_carousel (initLauncher witnessItems 0)).currentIndex :=
  (c3_slot_invariant (initLauncher witnessItems 0) (by decide)).1.1

/-- C1: reorder commit correctness on the five-item store.  Entering reorder
at FocusIndex 1 (item b), moving the target to index 3 and confirming yields
the store [a,c,d,b,e] with FocusIndex 3: confirm pops the item at
selected_index, reinserts it at target_index and sets FocusIndex to
target_index. -/
theorem c1_reorder_commit (a b c d e : Item) :
    (c1Run a b c d e).1.apps = [a, c, d, b, e]
      ∧ (c1Run a b c d e).1.currentIndex = 3
      ∧ (c1Run a b c d e).2 = true := by
  refine ⟨rfl, rfl, rfl⟩

/-! ## C4: animation exclusivity -/

/-- A six-item store (the smallest size on which reorder movement is
circular). -/
def sixItems : List Item :=
  [⟨"A", "p1", none⟩, ⟨"B", "p2", none⟩, ⟨"C", "p3", none⟩, ⟨"D", "p4", none⟩,
   ⟨"E", "p5", none⟩, ⟨"F", "p6", none⟩]

/-- A state with the animation lock held during an active reorder session
over six items. -/
def c4CexState : Launcher :=
  { initLauncher sixItems 0 with
    isAnimating := true
    session := some ⟨0, 0⟩
    tiles := windowTiles 6 0 }

/-- C4 counterexample: with the animation lock held and an active reorder
session over six items (circular movement), move_right still advances
FocusIndex and returns success — the claim that every begin/scroll command in
any mode leaves FocusIndex unchanged and reports non-success while the lock is
held is false on the code. -/
theorem c4_counterexample :
    c4CexState.isAnimating = true
      ∧ (move_right c4CexState).2 = true
      ∧ (move_right c4CexState).1.currentIndex ≠ c4CexState.currentIndex := by
  refine ⟨rfl, rfl, ?_⟩
  decide

/-- C4 (amended): while a transition is in progress, animate_carousel is a
no-op returning the non-success indicator and browse-mode scroll commands
leave FocusIndex unchanged; reorder-mode circular moves (item count > 5),
however, are not gated by the lock — they update FocusIndex to the new target
and report success. -/
theorem c4_animation_exclusivity (L : Launcher) (h : L.isAnimating = true) :
    (animate_carousel L).2 = false
      ∧ (animate_carousel L).1 = L
      ∧ (keyRight L).currentIndex = L.currentIndex
      ∧ (keyLeft L).currentIndex = L.currentIndex
      ∧ (∀ s t, L.session = some ⟨s, t⟩ → 5 < L.apps.length →
          (move_right L).2 = true
            ∧ (move_right L).1.currentIndex = (t + 1) % L.apps.length) := by
  have hnot : ∀ X : Launcher, X.isAnimating = true →
      animate_carousel X = (X, false) := by
    intro X hX
    unfold animate_carousel
    rw [hX]
    rfl
  refine ⟨by rw [hnot L h], by rw [hnot L h], ?_, ?_, ?_⟩
  · unfold keyRight
    rw [h]
    split
    · rfl
    split
    · rfl
    split
    · rfl
    split
    · rename_i hcond
      simp at hcond
    · rfl
  · unfold keyLeft
    rw [h]
    split
    · rfl
    split
    · rfl
    split
    · rfl
    split
    · rename_i hcond
      simp at hcond
    · rfl
  · intro s t hs hlen
    have hn5 : ¬(L.apps.length ≤ 5) := Nat.not_le.mpr hlen
    unfold move_right
    rw [hs]
    dsimp only
    rw [if_neg hn5]
    constructor
    · rfl
    · rw [animate_fst_currentIndex]

/-- Witness for the amended C4 at the concrete locked state: begin reports
non-success, and the circular reorder move still moves the focus to
(0 + 1) mod 6. -/
theorem c4_animation_exclusivity_witness :
    (animate_carousel c4CexState).2 = false
      ∧ (move_right c4CexState).1.currentIndex = (0 + 1) % c4CexState.apps.length :=
  ⟨(c4_animation_exclusivity c4CexState rfl).1,
   ((c4_animation_exclusivity c4CexState rfl).2.2.2.2 0 0 rfl (by decide)).2⟩

/-- A reachable completed transition that breaks the slot window: build over
six items at focus 0, activate reorder, then two rapid circular move-rights —
the first starts the animation and sets current_index = 1, the second sets
current_index = 2 while animate_carousel no-ops on the held lock — and
finally the first animation's finished-callback (reposition_tiles "right")
runs against the live current_index. -/
def c3CexState : Launcher :=
  reposition_tiles
    ((move_right
      ((move_right
        { build_infinite_carousel (initLauncher sixItems 0) with
          session := some ⟨0, 0⟩ }).1)).1)
    .right

/-- C3 counterexample: after this completed transition (the animation lock is
released) the bound indices are [3,4,5,0,1,2,3,4,0] while the centered window
of FocusIndex 2 over 6 items is [4,5,0,1,2,3,4,5,0] — not equal even as
multisets, refuting the claim that the window equation holds after every
completed transition. -/
theorem c3_counterexample :
    c3CexState.isAnimating = false
      ∧ ¬ (c3CexState.tiles.map (fun t => t.appIndex)).Perm
          (specWindow c3CexState.apps.length c3CexState.currentIndex) := by
  decide

/-! ## C5 / C6: reorder movement -/

lemma move_left_keeps (M : Launcher) (s t : ℕ) (h : M.session = some ⟨s, t⟩) :
    (move_left M).1.apps = M.apps
      ∧ ∃ u, (move_left M).1.session = some ⟨s, u⟩ := by
  unfold move_left
  rw [h]
  dsimp only
  split
  · split
    · exact ⟨rfl, t - 1, rfl⟩
    · exact ⟨rfl, t, h⟩
  · refine ⟨?_, subMod t 1 M.apps.length, ?_⟩
    · rw [animate_fst_apps]
    · rw [animate_fst_session]

lemma move_right_keeps (M : Launcher) (s t : ℕ) (h : M.session = some ⟨s, t⟩) :
    (move_right M).1.apps = M.apps
      ∧ ∃ u, (move_right M).1.session = some ⟨s, u⟩ := by
  unfold move_right
  rw [h]
  dsimp only
  split
  · split
    · exact ⟨rfl, t + 1, rfl⟩
    · exact ⟨rfl, t, h⟩
  · refine ⟨?_, (t + 1) % M.apps.length, ?_⟩
    · rw [animate_fst_apps]
    · rw [animate_fst_session]

lemma applyMoves_cons_left (M : Launcher) (ds : List Dir) :
    applyMoves M (.left :: ds) = applyMoves (move_left M).1 ds := rfl

lemma applyMoves_cons_right (M : Launcher) (ds : List Dir) :
    applyMoves M (.right :: ds) = applyMoves (move_right M).1 ds := rfl

/-- Reorder moves never touch the store and never change the session's
selected index (nor deactivate the session). -/
lemma applyMoves_keeps (ds : List Dir) :
    ∀ (M : Launcher) (s t : ℕ), M.session = some ⟨s, t⟩ →
      (applyMoves M ds).apps = M.apps
        ∧ ∃ u, (applyMoves M ds).session = some ⟨s, u⟩ := by
  induction ds with
  | nil => exact fun M s t h => ⟨rfl, t, h⟩
  | cons d ds ih =>
    intro M s t h
    cases d
    · rw [applyMoves_cons_left]
      obtain ⟨ha, u, hu⟩ := move_left_keeps M s t h
      obtain ⟨ha2, hex⟩ := ih (move_left M).1 s u hu
      exact ⟨ha2.trans ha, hex⟩
    · rw [applyMoves_cons_right]
      obtain ⟨ha, u, hu⟩ := move_right_keeps M s t h
      obtain ⟨ha2, hex⟩ := ih (move_right M).1 s u hu
      exact ⟨ha2.trans ha, hex⟩

lemma build_apps (L : Launcher) :
    (build_infinite_carousel L).apps = L.apps := by
  unfold build_infinite_carousel
  split <;> rfl

lemma build_currentIndex_of_lt (L : Launcher)
    (h : L.currentIndex < L.apps.length) :
    (build_infinite_carousel L).currentIndex = L.currentIndex := by
  have hn : 0 < L.apps.length := Nat.lt_of_le_of_lt (Nat.zero_le _) h
  rw [build_state L hn]
  show (if L.apps.length ≤ L.currentIndex then 0 else L.currentIndex)
      = L.currentIndex
  rw [if_neg (Nat.not_le.mpr h)]

lemma activate_state (L : Launcher) (h0 : L.session = none)
    (ha : L.apps.isEmpty = false) (hm : L.isInMenu = false)
    (hd : L.dialogActive = false) :
    activate_reorder L =
      { L with
        longPressArmed := false,
        session := some ⟨L.currentIndex, L.currentIndex⟩ } := by
  unfold activate_reorder
  dsimp only
  rw [ha, h0, hm, hd]
  rfl

/-- C5: cancel restores everything — entering reorder at focus i, performing
any finite sequence of move-left/move-right commands and cancelling leaves
the ItemStore unchanged and restores FocusIndex to i. -/
theorem c5_cancel_restores (L : Launcher) (ds : List Dir)
    (h0 : L.session = none) (ha : L.apps.isEmpty = false)
    (hm : L.isInMenu = false) (hd : L.dialogActive = false)
    (hci : L.currentIndex < L.apps.length) :
    (cancel_reorder (applyMoves (activate_reorder L) ds)).2 = true
      ∧ (cancel_reorder (applyMoves (activate_reorder L) ds)).1.apps = L.apps
      ∧ (cancel_reorder (applyMoves (activate_reorder L) ds)).1.currentIndex
          = L.currentIndex := by
  have hact := activate_state L h0 ha hm hd
  have hsess : (activate_reorder L).session
      = some ⟨L.currentIndex, L.currentIndex⟩ := by rw [hact]
  have happ : (activate_reorder L).apps = L.apps := by rw [hact]
  obtain ⟨hA, u, hU⟩ :=
    applyMoves_keeps ds (activate_reorder L) L.currentIndex L.currentIndex hsess
  have hLMapps : (applyMoves (activate_reorder L) ds).apps = L.apps :=
    hA.trans happ
  unfold cancel_reorder
  rw [hU]
  dsimp only
  refine ⟨rfl, ?_, ?_⟩
  · rw [build_apps]
    exact hLMapps
  · have hX :
        ({ exit_reorder (applyMoves (activate_reorder L) ds) with
            currentIndex := L.currentIndex } : Launcher).currentIndex <
          ({ exit_reorder (applyMoves (activate_reorder L) ds) with
              currentIndex := L.currentIndex } : Launcher).apps.length := by
      show L.currentIndex < (applyMoves (activate_reorder L) ds).apps.length
      rw [hLMapps]
      exact hci
    exact build_currentIndex_of_lt _ hX

/-- Witness for C5: three items, focus 1, one left and one right move, then
cancel. -/
theorem c5_cancel_restores_witness :
    (cancel_reorder (applyMoves (activate_reorder (initLauncher witnessItems 1))
        [Dir.left, Dir.right])).2 = true
      ∧ (cancel_reorder (applyMoves
          (activate_reorder (initLauncher witnessItems 1))
          [Dir.left, Dir.right])).1.apps = (initLauncher witnessItems 1).apps
      ∧ (cancel_reorder (applyMoves
          (activate_reorder (initLauncher witnessItems 1))
          [Dir.left, Dir.right])).1.currentIndex
          = (initLauncher witnessItems 1).currentIndex :=
  c5_cancel_restores (initLauncher witnessItems 1) [Dir.left, Dir.right]
    (by decide) (by decide) (by decide) (by decide) (by decide)

/-- The target index of the current reorder session, when one is active. -/
def targetOf (L : Launcher) : Option ℕ :=
  L.session.map (fun s => s.target)

/-- C6: with at most five items reorder movement is linear-clamped to
[0, N-1] (no wraparound); with more than five items it is circular modulo N,
so move-left from target 0 lands on N - 1. -/
theorem c6_clamp_vs_wrap (L : Launcher) (s t : ℕ)
    (h : L.session = some ⟨s, t⟩) :
    (L.apps.length ≤ 5 → t < L.apps.length →
        targetOf (move_left L).1 = some (if 0 < t then t - 1 else t)
      ∧ targetOf (move_right L).1
          = some (if t < L.apps.length - 1 then t + 1 else t)
      ∧ (if 0 < t then t - 1 else t) < L.apps.length
      ∧ (if t < L.apps.length - 1 then t + 1 else t) < L.apps.length)
    ∧ (5 < L.apps.length →
        targetOf (move_left L).1 = some (subMod t 1 L.apps.length)
      ∧ targetOf (move_right L).1 = some ((t + 1) % L.apps.length)
      ∧ (t = 0 →
          targetOf (move_left L).1 = some (L.apps.length - 1))) := by
  constructor
  · intro h5 ht
    refine ⟨?_, ?_, ?_, ?_⟩
    · unfold move_left
      rw [h]
      dsimp only
      rw [if_pos h5]
      split
      · rfl
      · unfold targetOf
        rw [h]
        rfl
    · unfold move_right
      rw [h]
      dsimp only
      rw [if_pos h5]
      split
      · rfl
      · unfold targetOf
        rw [h]
        rfl
    · split <;> omega
    · split <;> omega
  · intro h5
    have hn5 : ¬(L.apps.length ≤ 5) := Nat.not_le.mpr h5
    have hleft : targetOf (move_left L).1 = some (subMod t 1 L.apps.length) := by
      unfold move_left
      rw [h]
      dsimp only
      rw [if_neg hn5]
      unfold targetOf
      rw [animate_fst_session]
      rfl
    refine ⟨hleft, ?_, ?_⟩
    · unfold move_right
      rw [h]
      dsimp only
      rw [if_neg hn5]
      unfold targetOf
      rw [animate_fst_session]
      rfl
    · intro ht0
      rw [hleft, ht0]
      have hv : subMod 0 1 L.apps.length = L.apps.length - 1 := by
        unfold subMod
        have h1 : 0 + 1 * L.apps.length - 1 = L.apps.length - 1 := by omega
        rw [h1, Nat.mod_eq_of_lt (by omega)]
      rw [hv]

/-- Concrete reorder sessions over three and six items for C6. -/
def c6Small : Launcher :=
  { initLauncher witnessItems 0 with session := some ⟨0, 0⟩ }

def c6Big : Launcher :=
  { initLauncher sixItems 0 with session := some ⟨0, 0⟩ }

/-- Witness for C6: with three items move-left at target 0 stays clamped at
0; with six items it wraps to 5. -/
theorem c6_clamp_vs_wrap_witness :
    targetOf (move_left c6Small).1 = some (if 0 < 0 then 0 - 1 else 0)
      ∧ targetOf (move_left c6Big).1 = some (c6Big.apps.length - 1) :=
  ⟨((c6_clamp_vs_wrap c6Small 0 0 rfl).1 (by decide) (by decide)).1,
   ((c6_clamp_vs_wrap c6Big 0 0 rfl).2 (by decide)).2.2 rfl⟩

/-! ## C7: input debounce -/

lemma lookup_cons_self (m : List (ℕ × ℕ)) (b t : ℕ) :
    ((b, t) :: m).lookup b = some t := by
  simp [List.lookup]

lemma handle_button_blocked (L : Launcher) (b t : ℕ)
    (h : (match L.buttonCooldown.lookup b with
          | some last => decide (t - last < 300)
          | none => false) = true) :
    handle_button L b t = (L, false) := by
  unfold handle_button
  dsimp only
  rw [h, if_pos rfl]

lemma handle_button_not_blocked (L : Launcher) (b t : ℕ)
    (h : (match L.buttonCooldown.lookup b with
          | some last => decide (t - last < 300)
          | none => false) = false) :
    handle_button L b t =
      ({ L with buttonCooldown := (b, t) :: L.buttonCooldown },
        b == 0 || b == 1 || b == 2 || b == 3 || b == 9) := by
  unfold handle_button
  dsimp only
  rw [h, if_neg Bool.false_ne_true]

lemma build_lastButtonTimes (L : Launcher) :
    (build_infinite_carousel L).lastButtonTimes = L.lastButtonTimes := by
  unfold build_infinite_carousel
  split <;> rfl

lemma activate_lastButtonTimes (L : Launcher) :
    (activate_reorder L).lastButtonTimes = L.lastButtonTimes := by
  unfold activate_reorder
  dsimp only
  split <;> rfl

lemma cancel_fst_lastButtonTimes (L : Launcher) :
    (cancel_reorder L).1.lastButtonTimes = L.lastButtonTimes := by
  unfold cancel_reorder
  cases hL : L.session with
  | none => rfl
  | some sess =>
    dsimp only
    rw [build_lastButtonTimes]
    rfl

lemma joypad_blocked (M : Launcher) (b t : ℕ)
    (h : (match M.lastButtonTimes.lookup b with
          | some last => decide (t - last < 300)
          | none => false) = true) :
    handle_joypad_button M b t = (M, false) := by
  unfold handle_joypad_button
  dsimp only
  rw [h, if_pos rfl]

/-- Every accepted (non-debounced) press stamps the per-button time map,
whichever branch handles the button afterwards. -/
lemma joypad_stamps (M : Launcher) (b t : ℕ)
    (h : (match M.lastButtonTimes.lookup b with
          | some last => decide (t - last < 300)
          | none => false) = false) :
    (handle_joypad_button M b t).1.lastButtonTimes
      = (b, t) :: M.lastButtonTimes := by
  unfold handle_joypad_button
  dsimp only
  rw [h, if_neg Bool.false_ne_true]
  split
  · split
    · rfl
    · cases hs : M.session with
      | none =>
        dsimp only
        split
        · rw [activate_lastButtonTimes]
        · rfl
      | some sess =>
        dsimp only
        rw [cancel_fst_lastButtonTimes]
  · rfl

/-- C7: debounce — two level-triggered presses of the same button within the
300 ms cooldown window resolve into exactly one command: the first accepted
press fires (and stamps the map), the second is dropped without any state
change.  This holds for TVLauncher.handle_button and for the reorder module's
handle_joypad_button debounce map alike. -/
theorem c7_debounce (L : Launcher) (b t1 t2 : ℕ)
    (hfirst : (handle_button L b t1).2 = true) (hwin : t2 - t1 < 300) :
    (handle_button (handle_button L b t1).1 b t2).2 = false
      ∧ (handle_button (handle_button L b t1).1 b t2).1
          = (handle_button L b t1).1
      ∧ (∀ M : Launcher, M.lastButtonTimes.lookup b = none →
          (handle_joypad_button (handle_joypad_button M b t1).1 b t2).2 = false
            ∧ (handle_joypad_button (handle_joypad_button M b t1).1 b t2).1
                = (handle_joypad_button M b t1).1) := by
  have hjoy : ∀ M : Launcher, M.lastButtonTimes.lookup b = none →
      (handle_joypad_button (handle_joypad_button M b t1).1 b t2).2 = false
        ∧ (handle_joypad_button (handle_joypad_button M b t1).1 b t2).1
            = (handle_joypad_button M b t1).1 := by
    intro M hM
    have hb1 : (match M.lastButtonTimes.lookup b with
        | some last => decide (t1 - last < 300)
        | none => false) = false := by
      rw [hM]
    have hst := joypad_stamps M b t1 hb1
    have hb2 : (match (handle_joypad_button M b t1).1.lastButtonTimes.lookup b with
        | some last => decide (t2 - last < 300)
        | none => false) = true := by
      rw [hst, lookup_cons_self]
      exact decide_eq_true hwin
    rw [joypad_blocked _ _ _ hb2]
    exact ⟨rfl, rfl⟩
  cases hb : (match L.buttonCooldown.lookup b with
      | some last => decide (t1 - last < 300)
      | none => false) with
  | true =>
    rw [handle_button_blocked L b t1 hb] at hfirst
    simp at hfirst
  | false =>
    rw [handle_button_not_blocked L b t1 hb]
    have hbl2 : (match
        ({ L with buttonCooldown := (b, t1) :: L.buttonCooldown} :
          Launcher).buttonCooldown.lookup b with
        | some last => decide (t2 - last < 300)
        | none => false) = true := by
      show (match ((b, t1) :: L.buttonCooldown).lookup b with
        | some last => decide (t2 - last < 300)
        | none => false) = true
      rw [lookup_cons_self]
      exact decide_eq_true hwin
    rw [handle_button_blocked _ b t2 hbl2]
    exact ⟨rfl, rfl, hjoy⟩

/-- Witness for C7: two presses of button 0 at 1000 ms and 1100 ms on a fresh
state — the second is dropped by both cooldown maps. -/
theorem c7_debounce_witness :
    (handle_button (handle_button (initLauncher witnessItems 0) 0 1000).1
        0 1100).2 = false
      ∧ (handle_joypad_button
          (handle_joypad_button (initLauncher witnessItems 0) 0 1000).1
          0 1100).2 = false :=
  ⟨(c7_debounce (initLauncher witnessItems 0) 0 1000 1100 (by decide)
      (by decide)).1,
   ((c7_debounce (initLauncher witnessItems 0) 0 1000 1100 (by decide)
      (by decide)).2.2 (initLauncher witnessItems 0) (by decide)).1⟩

/-! ## C8: exit-cooldown gating -/

lemma build_recentlyExited (L : Launcher) :
    (build_infinite_carousel L).recentlyExited = L.recentlyExited := by
  unfold build_infinite_carousel
  split <;> rfl

lemma build_session (L : Launcher) :
    (build_infinite_carousel L).session = L.session := by
  unfold build_infinite_carousel
  split <;> rfl

lemma build_isInMenu (L : Launcher) :
    (build_infinite_carousel L).isInMenu = L.isInMenu := by
  unfold build_infinite_carousel
  split <;> rfl

lemma build_dialogActive (L : Launcher) :
    (build_infinite_carousel L).dialogActive = L.dialogActive := by
  unfold build_infinite_carousel
  split <;> rfl

lemma cancel_fields (L : Launcher) (sess : Session) (h : L.session = some sess) :
    (cancel_reorder L).1.recentlyExited = true
      ∧ (cancel_reorder L).1.session = none
      ∧ (cancel_reorder L).1.apps = L.apps
      ∧ (cancel_reorder L).1.isInMenu = L.isInMenu
      ∧ (cancel_reorder L).1.dialogActive = L.dialogActive := by
  unfold cancel_reorder
  rw [h]
  dsimp only
  refine ⟨?_, ?_, ?_, ?_, ?_⟩
  · rw [build_recentlyExited]
    rfl
  · rw [build_session]
    rfl
  · rw [build_apps]
    rfl
  · rw [build_isInMenu]
    rfl
  · rw [build_dialogActive]
    rfl

lemma confirm_fields (L : Launcher) (sess : Session) (h : L.session = some sess) :
    (confirm_reorder L).1.recentlyExited = true
      ∧ (confirm_reorder L).1.session = none
      ∧ (confirm_reorder L).1.isInMenu = L.isInMenu
      ∧ (confirm_reorder L).1.dialogActive = L.dialogActive := by
  unfold confirm_reorder
  rw [h]
  dsimp only
  refine ⟨?_, ?_, ?_, ?_⟩
  · rw [build_recentlyExited]
    rfl
  · rw [build_session]
    rfl
  · rw [build_isInMenu]
    split <;> rfl
  · rw [build_dialogActive]
    split <;> rfl

lemma length_removeAt :
    ∀ (l : List Item) (i : ℕ), i < l.length →
      (removeAt l i).length = l.length - 1 := by
  intro l
  induction l with
  | nil => intro i h; simp at h
  | cons y ys ih =>
    intro i h
    cases i with
    | zero => rfl
    | succ j =>
      have hj : j < ys.length := by
        simpa using h
      show (y :: removeAt ys j).length = (y :: ys).length - 1
      simp [ih j hj]
      omega

lemma length_insertAt :
    ∀ (l : List Item) (i : ℕ) (x : Item), i ≤ l.length →
      (insertAt i x l).length = l.length + 1 := by
  intro l
  induction l with
  | nil =>
    intro i x _
    cases i <;> rfl
  | cons y ys ih =>
    intro i x h
    cases i with
    | zero => rfl
    | succ j =>
      have hj : j ≤ ys.length := by
        simpa using h
      show (y :: insertAt j x ys).length = (y :: ys).length + 1
      simp [ih j x hj]

lemma confirm_apps_length (L : Launcher) (sess : Session)
    (h : L.session = some sess) (hs : sess.selected < L.apps.length)
    (ht : sess.target < L.apps.length) :
    (confirm_reorder L).1.apps.length = L.apps.length := by
  unfold confirm_reorder
  rw [h]
  dsimp only
  rw [build_apps]
  split
  · show (insertAt sess.target (popItem L.apps sess.selected)
      (removeAt L.apps sess.selected)).length = L.apps.length
    have h1 : (removeAt L.apps sess.selected).length = L.apps.length - 1 :=
      length_removeAt _ _ hs
    have h2 : sess.target ≤ (removeAt L.apps sess.selected).length := by
      rw [h1]
      omega
    rw [length_insertAt _ _ _ h2, h1]
    omega
  · rfl

lemma start_long_press_blocked (M : Launcher) (hr : M.recentlyExited = true) :
    start_long_press M = M := by
  unfold start_long_press
  rw [hr]
  simp

lemma key_toggle_blocked (M : Launcher) (hr : M.recentlyExited = true)
    (h0 : M.session = none) :
    key_toggle_r M = M := by
  unfold key_toggle_r
  rw [h0]
  split
  · rfl
  · dsimp only
    rw [hr]
    simp

lemma joypad_session_blocked (M : Launcher) (b t : ℕ)
    (hr : M.recentlyExited = true) (h0 : M.session = none) :
    (handle_joypad_button M b t).1.session = none
      ∧ (handle_joypad_button M b t).2 = false := by
  unfold handle_joypad_button
  dsimp only
  split
  · exact ⟨h0, rfl⟩
  · split
    · split
      · exact ⟨h0, rfl⟩
      · rw [h0]
        dsimp only
        rw [hr]
        simp [h0]
    · exact ⟨h0, rfl⟩

lemma key_toggle_activates (M : Launcher) (h0 : M.session = none)
    (ha : M.apps.isEmpty = false) (hm : M.isInMenu = false)
    (hd : M.dialogActive = false) (hr : M.recentlyExited = false) :
    (key_toggle_r M).session = some ⟨M.currentIndex, M.currentIndex⟩ := by
  unfold key_toggle_r
  rw [hd, hm, h0]
  simp only [Bool.or_self]
  rw [if_neg Bool.false_ne_true]
  try dsimp only
  rw [ha, hr]
  simp only [Bool.not_false, Bool.and_self]
  rw [if_pos trivial, activate_state M h0 ha hm hd]

lemma start_long_press_arms (M : Launcher) (h0 : M.session = none)
    (ha : M.apps.isEmpty = false) (hm : M.isInMenu = false)
    (hd : M.dialogActive = false) (hr : M.recentlyExited = false) :
    (start_long_press M).longPressArmed = true := by
  unfold start_long_press
  rw [h0, ha, hm, hd, hr]
  simp

/-- C8: exit-cooldown gating — a confirmed or cancelled reorder sets the
exit-cooldown flag and deactivates the session; while the flag is set, every
re-entry path (keyboard long-press, keyboard toggle, controller toggle) is
rejected as a no-op; once the cooldown timer clears the flag, activation
succeeds again under the normal preconditions (non-empty list, no menu, no
dialog). -/
theorem c8_cooldown_gating (L : Launcher) (sess : Session)
    (h : L.session = some sess)
    (hs : sess.selected < L.apps.length) (ht : sess.target < L.apps.length)
    (hm : L.isInMenu = false) (hd : L.dialogActive = false) :
    ((cancel_reorder L).1.recentlyExited = true
      ∧ (cancel_reorder L).1.session = none
      ∧ (confirm_reorder L).1.recentlyExited = true
      ∧ (confirm_reorder L).1.session = none)
    ∧ (∀ M : Launcher, M.recentlyExited = true → M.session = none →
        start_long_press M = M
          ∧ key_toggle_r M = M
          ∧ ∀ b t, (handle_joypad_button M b t).1.session = none
              ∧ (handle_joypad_button M b t).2 = false)
    ∧ ((key_toggle_r (clear_exit_cooldown (cancel_reorder L).1)).session
          = some ⟨(cancel_reorder L).1.currentIndex,
              (cancel_reorder L).1.currentIndex⟩
      ∧ (start_long_press
            (clear_exit_cooldown (cancel_reorder L).1)).longPressArmed = true
      ∧ (key_toggle_r (clear_exit_cooldown (confirm_reorder L).1)).session
          = some ⟨(confirm_reorder L).1.currentIndex,
              (confirm_reorder L).1.currentIndex⟩) := by
  have hn : 0 < L.apps.length := Nat.lt_of_le_of_lt (Nat.zero_le _) hs
  obtain ⟨hc1, hc2, hc3, hc4, hc5⟩ := cancel_fields L sess h
  obtain ⟨hf1, hf2, hf3, hf4⟩ := confirm_fields L sess h
  have hflen := confirm_apps_length L sess h hs ht
  refine ⟨⟨hc1, hc2, hf1, hf2⟩, ?_, ?_, ?_, ?_⟩
  · intro M hr h0
    exact ⟨start_long_press_blocked M hr, key_toggle_blocked M hr h0,
      fun b t => joypad_session_blocked M b t hr h0⟩
  · have e1 : (clear_exit_cooldown (cancel_reorder L).1).apps = L.apps := hc3
    have e2 : (clear_exit_cooldown (cancel_reorder L).1).isInMenu
        = L.isInMenu := hc4
    have e3 : (clear_exit_cooldown (cancel_reorder L).1).dialogActive
        = L.dialogActive := hc5
    exact key_toggle_activates (clear_exit_cooldown (cancel_reorder L).1)
      hc2 (by rw [e1]; exact isEmpty_false_of_pos _ hn)
      (by rw [e2]; exact hm) (by rw [e3]; exact hd) rfl
  · have e1 : (clear_exit_cooldown (cancel_reorder L).1).apps = L.apps := hc3
    have e2 : (clear_exit_cooldown (cancel_reorder L).1).isInMenu
        = L.isInMenu := hc4
    have e3 : (clear_exit_cooldown (cancel_reorder L).1).dialogActive
        = L.dialogActive := hc5
    exact start_long_press_arms (clear_exit_cooldown (cancel_reorder L).1)
      hc2 (by rw [e1]; exact isEmpty_false_of_pos _ hn)
      (by rw [e2]; exact hm) (by rw [e3]; exact hd) rfl
  · have e1 : (clear_exit_cooldown (confirm_reorder L).1).apps.length
        = L.apps.length := hflen
    have e2 : (clear_exit_cooldown (confirm_reorder L).1).isInMenu
        = L.isInMenu := hf3
    have e3 : (clear_exit_cooldown (confirm_reorder L).1).dialogActive
        = L.dialogActive := hf4
    exact key_toggle_activates (clear_exit_cooldown (confirm_reorder L).1)
      hf2 (by apply isEmpty_false_of_pos; rw [e1]; exact hn)
      (by rw [e2]; exact hm) (by rw [e3]; exact hd) rfl

/-- Witness for C8 at a concrete active session over three items. -/
theorem c8_cooldown_gating_witness :
    (cancel_reorder c6Small).1.recentlyExited = true
      ∧ (key_toggle_r (clear_exit_cooldown (cancel_reorder c6Small).1)).session
          = some ⟨(cancel_reorder c6Small).1.currentIndex,
              (cancel_reorder c6Small).1.currentIndex⟩ :=
  ⟨(c8_cooldown_gating c6Small ⟨0, 0⟩ rfl (by decide) (by decide) (by decide)
      (by decide)).1.1,
   (c8_cooldown_gating c6Small ⟨0, 0⟩ rfl (by decide) (by decide) (by decide)
      (by decide)).2.2.1⟩

/-! ## C9: the cooldown flag drops every controller button -/

/-- C9: while the reorder exit-cooldown flag is set, the installed controller
button handler drops every button command — launch, exit, edit, delete and
menu included — before any other handling, leaving the state untouched;
nothing reaches the original handler until the flag is cleared. -/
theorem c9_cooldown_drops_all_buttons (L : Launcher) (b t : ℕ)
    (hr : L.recentlyExited = true) :
    enhanced_handle_button L b t = (L, ButtonOutcome.dropped) := by
  unfold enhanced_handle_button
  rw [hr, if_pos rfl]

/-- A post-exit state with the cooldown flag set. -/
def c9State : Launcher :=
  { initLauncher witnessItems 0 with recentlyExited := true }

/-- Witness for C9: button 0 (launch) at an arbitrary tick is dropped. -/
theorem c9_cooldown_drops_all_buttons_witness :
    enhanced_handle_button c9State 0 500 = (c9State, ButtonOutcome.dropped) :=
  c9_cooldown_drops_all_buttons c9State 0 500 rfl

/-! ## C10: FocusIndex bounds under rebuild and removal -/

lemma build_bounds (X : Launcher) (hn : 0 < X.apps.length) :
    (build_infinite_carousel X).currentIndex
      < (build_infinite_carousel X).apps.length := by
  rw [build_state X hn]
  show (if X.apps.length ≤ X.currentIndex then 0 else X.currentIndex)
      < X.apps.length
  split
  · exact hn
  · rename_i hlt
    omega

lemma remove_unfold (L : Launcher) (replyYes : Bool)
    (hne : L.apps.isEmpty = false) :
    remove_current_app L replyYes =
      build_infinite_carousel
        (let L1 :=
          if replyYes then { L with apps := removeAt L.apps L.currentIndex }
          else L
         if L1.apps.length ≤ L1.currentIndex ∧ L1.apps.isEmpty = false then
           { L1 with currentIndex := L1.apps.length - 1 }
         else if L1.apps.isEmpty then { L1 with currentIndex := 0 }
         else L1) := by
  unfold remove_current_app
  rw [hne, if_neg Bool.false_ne_true]

/-- C10: every carousel rebuild and every item removal keeps FocusIndex in
bounds — build resets it to 0 whenever it is ≥ the item count, and after
build or remove FocusIndex < N whenever the resulting store is non-empty. -/
theorem c10_focus_bounds (L : Launcher) :
    (0 < L.apps.length →
        (L.apps.length ≤ L.currentIndex →
            (build_infinite_carousel L).currentIndex = 0)
          ∧ (build_infinite_carousel L).currentIndex < L.apps.length)
    ∧ (∀ replyYes : Bool, L.currentIndex < L.apps.length →
        0 < (remove_current_app L replyYes).apps.length →
        (remove_current_app L replyYes).currentIndex
          < (remove_current_app L replyYes).apps.length) := by
  constructor
  · intro hn
    constructor
    · intro hge
      rw [build_state L hn]
      show (if L.apps.length ≤ L.currentIndex then 0 else L.currentIndex) = 0
      rw [if_pos hge]
    · have := build_bounds L hn
      rw [build_state L hn] at this ⊢
      exact this
  · intro replyYes hci hres
    have hn : 0 < L.apps.length := Nat.lt_of_le_of_lt (Nat.zero_le _) hci
    have hne := isEmpty_false_of_pos _ hn
    rw [remove_unfold L replyYes hne] at hres ⊢
    rw [build_apps] at hres
    exact build_bounds _ hres

/-- Witness for C10: a rebuild with an out-of-range focus (5 over a 3-item
store) resets it to 0, and a confirmed removal at the last index keeps the
focus in range. -/
theorem c10_focus_bounds_witness :
    (build_infinite_carousel (initLauncher witnessItems 5)).currentIndex = 0
      ∧ (remove_current_app (initLauncher witnessItems 2) true).currentIndex
          < (remove_current_app (initLauncher witnessItems 2) true).apps.length :=
  ⟨((c10_focus_bounds (initLauncher witnessItems 5)).1 (by decide)).1
      (by decide),
   (c10_focus_bounds (initLauncher witnessItems 2)).2 true (by decide)
      (by decide)⟩

end TVL
